import Mathlib

/-!
Verification of the procure-to-pay process-mining pipeline
(`pm_streamlit_app.py`).

The development embeds the data-preparation and filtering logic of the
application as executable Lean definitions and proves the specified
properties about them.  Pure pandas expressions become functions on
`List`-based tables; the pm4py discovery and rendering routines, which
are external library calls, are modelled from the specification (§4.4,
§4.5) and marked as such in their doc comments.
-/

namespace P2P

/-! ## Decimal digit strings

`str(n)` in the source (used for event ids and for the year allow-list)
is embedded as `Nat.repr` / `Nat.toDigits 10`.  `digitsVal` is the
inverse fold used to recover the numeric value of a digit string. -/

/-- Value of a list of decimal digit characters (most significant first). -/
def digitsVal (cs : List Char) : Nat :=
  cs.foldl (fun a c => 10 * a + (c.toNat - 48)) 0

/-- The four decimal digit characters of a year below 10000
(most significant first). -/
def natDigits4 (y : Nat) : List Char :=
  [Nat.digitChar (y / 1000 % 10), Nat.digitChar (y / 100 % 10),
   Nat.digitChar (y / 10 % 10), Nat.digitChar (y % 10)]

/-! ## Canonical table rows

One row of the canonical table produced by `load_data`
(columns of `cols_to_keep`, line 38-40 of the source). -/

structure Row where
  po_number : Int
  pr_po_no : String
  uid_number : Option String
  activity : String
  date : List Char
  timestamp : Int
  item : String
  item_line : String
  po_line : String
  gr_number : String
  gr_line : String
  inv_line : String
  wf_line : String
deriving DecidableEq

/-- One row of the raw dataset before `load_data` coerces `po_number`
and parses timestamps.  The date is kept as its character string. -/
structure RawRow where
  po_number : List Char
  pr_po_no : String
  uid_number : Option String
  activity : String
  date : List Char
  item : String
  item_line : String
  po_line : String
  gr_number : String
  gr_line : String
  inv_line : String
  wf_line : String
deriving DecidableEq

/-! ## Event Log Normalizer (`load_data`, lines 14-40) -/

/-- Line 26: the configured set of valid years. -/
def year_filter : List Nat := [2020, 2021, 2022, 2023, 2024, 2025]

/-- Line 35: `[str(y) for y in year_filter]`. -/
def year_filter_strs : List (List Char) := year_filter.map (Nat.toDigits 10)

/-- Lines 34-35: a row is kept when the first four characters of its
date string are in the rendered year allow-list. -/
def year_keep (d : List Char) : Bool :=
  decide (d.take 4 ∈ year_filter_strs)

/-- Line 35: restriction of the dataset to rows of the valid years. -/
def year_filtered (rows : List RawRow) : List RawRow :=
  rows.filter (fun r => year_keep r.date)

/-- Modelled from the spec: `pandas.to_numeric(..., errors='coerce')` is
not in the repository; per §4.1 it parses an optional sign followed by
decimal digits and yields nothing ("NaN") on any other input. -/
def to_numeric (s : List Char) : Option Int :=
  if s ≠ [] ∧ s.all Char.isDigit then some (Int.ofNat (digitsVal s))
  else if s.head? = some '-' ∧ s.tail ≠ [] ∧ s.tail.all Char.isDigit then
    some (-(Int.ofNat (digitsVal s.tail)))
  else none

/-- Line 31: `pd.to_numeric(df['po_number'], errors='coerce').fillna(0).astype(int)` —
unparseable identifiers coerce to the sentinel 0. -/
def po_coerce (s : List Char) : Int :=
  (to_numeric s).getD 0

/-- Modelled from the spec: `pd.to_datetime(..., format='ISO8601')` is a
pandas call; per §4.1 the date string parses to an instant.  The instant
is represented by the value of the digit fields of the ISO string
(year, month, day, ... most significant first), which orders instants
like the dates they denote. -/
def parse_timestamp (d : List Char) : Int :=
  Int.ofNat (digitsVal (d.filter Char.isDigit))

/-- Modelled from the spec: the year of the parsed instant of an
ISO8601 date string is its leading 4-digit year field. -/
def ts_year (d : List Char) : Nat :=
  digitsVal (d.take 4)

/-- Lines 38-39: the fixed, ordered column set of the canonical table. -/
def cols_to_keep : List String :=
  ["po_number", "pr_po_no", "uid_number", "activity", "date", "timestamp",
   "item", "item_line", "po_line", "gr_number", "gr_line", "inv_line", "wf_line"]

/-- Lines 26-40: cleaning of the raw dataset.  The source coerces
`po_number` before the year filter; since the year filter only inspects
the date column, the coercion is applied in the final projection. -/
def normalize (raws : List RawRow) : List Row :=
  (year_filtered raws).map (fun r =>
    { po_number := po_coerce r.po_number
      pr_po_no := r.pr_po_no
      uid_number := r.uid_number
      activity := r.activity
      date := r.date
      timestamp := parse_timestamp r.date
      item := r.item
      item_line := r.item_line
      po_line := r.po_line
      gr_number := r.gr_number
      gr_line := r.gr_line
      inv_line := r.inv_line
      wf_line := r.wf_line })

/-- Lines 16-20: the source file may be absent (`FileNotFoundError`), in
which case `load_data` reports the error and returns no table. -/
def load_data : Option (List RawRow) → Option (List Row)
  | none => none
  | some raws => some (normalize raws)

/-! ## Pre-OCEL filters (module level, lines 123-131) -/

/-- `astype(str)` on the nullable invoice-identifier column: a missing
value renders as the string `"nan"`. -/
def uidStr : Option String → String
  | none => "nan"
  | some s => s

/-- Duplicate removal keeping first occurrences, as
`pandas.unique` / `drop_duplicates` do.  `seen` accumulates the values
already emitted. -/
def dropDupAux {α : Type} [DecidableEq α] (seen : List α) : List α → List α
  | [] => []
  | a :: rest =>
    if a ∈ seen then dropDupAux seen rest else a :: dropDupAux (a :: seen) rest

/-- Line 223 / line 129: `drop_duplicates()` / `.unique()`. -/
def dropDuplicates {α : Type} [DecidableEq α] (l : List α) : List α :=
  dropDupAux [] l

/-- Line 123: keep rows with timestamp in the inclusive date range. -/
def date_stage (raw : List Row) (d0 d1 : Int) : List Row :=
  raw.filter (fun r => decide (d0 ≤ r.timestamp) && decide (r.timestamp ≤ d1))

/-- Lines 125-126: if a PO allow-list is given, keep rows whose
`po_number` rendered as a string is in the list. -/
def po_stage (df : List Row) (po_list : List String) : List Row :=
  if po_list.isEmpty then df
  else df.filter (fun r => decide (toString r.po_number ∈ po_list))

/-- Line 129: the PO identifiers touched by any allow-listed invoice,
resolved over the full canonical table `df_raw`. -/
def po_of_invoice (raw : List Row) (inv_list : List String) : List Int :=
  dropDuplicates
    ((raw.filter (fun r => decide (uidStr r.uid_number ∈ inv_list))).map
      (fun r => r.po_number))

/-- Lines 128-131: if an invoice allow-list is given, keep rows whose PO
is in the resolved set, then keep rows with no invoice identifier or an
allow-listed one. -/
def invoice_stage (raw df : List Row) (inv_list : List String) : List Row :=
  if inv_list.isEmpty then df
  else
    (df.filter (fun r => decide (r.po_number ∈ po_of_invoice raw inv_list))).filter
      (fun r => r.uid_number.isNone || decide (uidStr r.uid_number ∈ inv_list))

/-- Lines 123-131: the three pre-OCEL filters in source order, producing
`df_filtered`. -/
def apply_filters (raw : List Row) (d0 d1 : Int) (po_list inv_list : List String) :
    List Row :=
  invoice_stage raw (po_stage (date_stage raw d0 d1) po_list) inv_list

/-! ## Activities filter (lines 160-198) -/

/-- Line 160. -/
def pr_acts : List String := ["PR Cancelled", "PR Purchase Request"]

/-- Line 161. -/
def po_acts : List String := ["PO From SAP", "PO From WISE"]

/-- Line 162. -/
def gr_acts : List String := ["GR (PO reversal)", "GR (Return)", "GR Goods Receipt"]

/-- Lines 163-165. -/
def inv_acts : List String :=
  ["Invoice Created", "Invoice Errors", "Invoice Payment", "Invoice Posted",
   "Invoice Unprocessed", "Invoice WF_DP_APPROV", "Invoice WF_FI_APPROV",
   "Invoice WF_GL_DISCREP", "Invoice WF_GR_MISSING", "Invoice WF_PO_MISSING",
   "Invoice WF_PRICE_DISC", "Invoice WF_QUANT_DISC", "Invoice WF_Unknown"]

/-- Lines 166-171. -/
def wf_acts : List String :=
  ["WF Data_Update", "WF FI_APPROV_Being processed", "WF FI_APPROV_Declined",
   "WF FI_APPROV_Recalled", "WF FI_APPROV_Released", "WF FI_APPROV_Sent",
   "WF GR_Missing_Being processed", "WF GR_Missing_Declined",
   "WF GR_Missing_Recalled", "WF GR_Missing_Released", "WF GR_Missing_Sent",
   "WF INFO_Being processed", "WF INFO_Declined", "WF INFO_Recalled",
   "WF INFO_Released", "WF INFO_Sent", "WF PO_MISSING_Being processed",
   "WF PO_MISSING_Declined", "WF PO_MISSING_Recalled", "WF PO_MISSING_Released",
   "WF PO_MISSING_Sent", "WF PRICE_DISC_Declined", "WF PRICE_DISC_Recalled",
   "WF PRICE_DISC_Released", "WF PRICE_DISC_Sent"]

/-- Line 173. -/
def all_available_acts : List String :=
  pr_acts ++ po_acts ++ gr_acts ++ inv_acts ++ wf_acts

/-- Line 186: the five main-activity groups offered by the group
multiselect. -/
inductive ActGroup where
  | PR
  | PO
  | GR
  | Invoicing
  | Workflow
deriving DecidableEq

/-- Line 188: the fixed static table from group to member activities. -/
def group_map : ActGroup → List String
  | .PR => pr_acts
  | .PO => po_acts
  | .GR => gr_acts
  | .Invoicing => inv_acts
  | .Workflow => wf_acts

/-- Lines 175-179: the activity-selection mode radio button. -/
inductive ActMode where
  | all
  | main
  | sub
deriving DecidableEq

/-- Lines 181-195: the selected activities; in group mode the group
member lists are accumulated with `extend` (lines 189-190), in
sub-activity mode the individually chosen activities are used. -/
def selected_acts : ActMode → List ActGroup → List String → List String
  | .all, _, _ => all_available_acts
  | .main, groups, _ => groups.foldl (fun acc g => acc ++ group_map g) []
  | .sub, _, indiv => indiv

/-- Line 198: `[a for a in selected_acts if a not in exclude_acts]`. -/
def final_activities (selected exclude : List String) : List String :=
  selected.filter (fun a => decide (a ∉ exclude))

/-! ## OCEL structuring (lines 222-226) -/

/-- Line 226: the event id `'e' + str(i)` of the row at ordinal `i`. -/
def eid (i : Nat) : String :=
  "e" ++ Nat.repr i

/-- Line 226: each deduplicated row receives the event id of its
ordinal position. -/
def assign_eids (l : List Row) : List (String × Row) :=
  l.enum.map (fun p => (eid p.1, p.2))

/-- Lines 222-226: exact-duplicate rows collapse to one event before
event identities are assigned. -/
def df_ocel_prep (dff : List Row) : List (String × Row) :=
  assign_eids (dropDuplicates dff)

/-! ## Application flow (lines 93, 250) -/

/-- What the page shows: whether the missing-file error was reported,
and, when data is available, the filtered table and the OCEL rows it
yields.  `body = none` means the downstream pipeline did not run. -/
structure AppRender where
  error_shown : Bool
  body : Option (List Row × List (String × Row))

/-- Lines 16-20 and 93: on a missing source file the error is shown and
the guarded block (filtering, OCEL building, discovery, rendering)
does not execute. -/
def run_app (file : Option (List RawRow)) (d0 d1 : Int)
    (po_list inv_list : List String) : AppRender :=
  match load_data file with
  | none => { error_shown := true, body := none }
  | some df_raw =>
    let dff := apply_filters df_raw d0 d1 po_list inv_list
    { error_shown := false, body := some (dff, df_ocel_prep dff) }

/-! ## OC-DFG discovery

`pm4py.discover_ocdfg` (line 57) is an external library call.  The
definitions below are modelled from the spec, §3 and §4.4: per-object
event sequences sorted by timestamp (ties by insertion order),
consecutive pairs, and the per-edge metrics they induce. -/

/-- Modelled from the spec: an OCEL event with its typed object
references (`(type, object id)` pairs). -/
structure Event where
  eid : Nat
  activity : String
  timestamp : Int
  objs : List (String × String)
deriving DecidableEq

/-- Insert an event after all earlier events with timestamp `≤` its
own, so that equal timestamps keep insertion order. -/
def insertByTs (e : Event) : List Event → List Event
  | [] => [e]
  | x :: xs => if x.timestamp ≤ e.timestamp then x :: insertByTs e xs else e :: x :: xs

/-- Modelled from the spec: stable sort of events by timestamp. -/
def sortByTs (l : List Event) : List Event :=
  l.foldl (fun acc e => insertByTs e acc) []

/-- Modelled from the spec: the sequence of an object of type `ot` and
id `oid` — the events referencing it, sorted by timestamp. -/
def seqOf (log : List Event) (ot oid : String) : List Event :=
  sortByTs (log.filter (fun e => decide ((ot, oid) ∈ e.objs)))

/-- The consecutive pairs of a sequence. -/
def pairs : List Event → List (Event × Event)
  | a :: b :: rest => (a, b) :: pairs (b :: rest)
  | _ => []

/-- The directly-follows edges one object's sequence induces. -/
def objEdges (seq : List Event) : List (String × String) :=
  (pairs seq).map (fun p => (p.1.activity, p.2.activity))

/-- How many event couples one object's sequence contributes to the
edge `a1 → a2`. -/
def objCouples (seq : List Event) (a1 a2 : String) : Nat :=
  ((pairs seq).filter
    (fun p => decide (p.1.activity = a1) && decide (p.2.activity = a2))).length

/-- The object's contribution to the unique-object count of the edge
`a1 → a2`: one the first time it contributes, regardless of how many
couples it contributes. -/
def objUnique (seq : List Event) (a1 a2 : String) : Nat :=
  if 0 < objCouples seq a1 a2 then 1 else 0

/-- The time gaps one object's sequence records into the duration
sample set of the edge `a1 → a2`. -/
def objGaps (seq : List Event) (a1 a2 : String) : List Int :=
  ((pairs seq).filter
    (fun p => decide (p.1.activity = a1) && decide (p.2.activity = a2))).map
    (fun p => p.2.timestamp - p.1.timestamp)

/-- Modelled from the spec: the distinct object ids of type `ot`
referenced by the log. -/
def objectsOfType (log : List Event) (ot : String) : List String :=
  dropDuplicates
    (((log.flatMap (fun e => e.objs)).filter (fun p => decide (p.1 = ot))).map Prod.snd)

/-- Modelled from the spec: the event-couple count of edge
`(ot, a1, a2)` aggregates the per-object contributions. -/
def edgeCouples (log : List Event) (ot a1 a2 : String) : Nat :=
  ((objectsOfType log ot).map (fun oid => objCouples (seqOf log ot oid) a1 a2)).sum

/-- Modelled from the spec: the unique-object count of edge
`(ot, a1, a2)` counts each contributing object once. -/
def edgeUniqueObjects (log : List Event) (ot a1 a2 : String) : Nat :=
  ((objectsOfType log ot).map (fun oid => objUnique (seqOf log ot oid) a1 a2)).sum

/-- Modelled from the spec: the duration sample set of edge
`(ot, a1, a2)`. -/
def edgeDurations (log : List Event) (ot a1 a2 : String) : List Int :=
  (objectsOfType log ot).flatMap (fun oid => objGaps (seqOf log ot oid) a1 a2)

/-! ## Rendering calls (lines 60-61) -/

/-- The arguments of one `pm4py.save_vis_ocdfg` call. -/
structure VisParams where
  annot : String
  act_metric : String
  edge_metric : Option String
  performance_aggregation : Option String
deriving DecidableEq

/-- Line 60: the frequency view uses the operator-chosen activity and
edge metrics. -/
def count_vis_params (act_metric edge_metric : String) : VisParams :=
  { annot := "frequency", act_metric := act_metric,
    edge_metric := some edge_metric, performance_aggregation := none }

/-- Line 61: the performance view hard-codes `act_metric='events'` and
passes the operator-chosen aggregation. -/
def perf_vis_params (time_op : String) : VisParams :=
  { annot := "performance", act_metric := "events",
    edge_metric := none, performance_aggregation := some time_op }

/-- Lines 60-61: the two rendering calls `pm_display` makes for one
discovery pass. -/
def pm_display_calls (act_metric edge_metric time_op : String) : VisParams × VisParams :=
  (count_vis_params act_metric edge_metric, perf_vis_params time_op)

/-- Modelled from the spec (§4.4 numeric semantics): the performance
edge label aggregates the duration samples with the selected operator;
an edge with an empty sample set gets no label and is omitted. -/
def perf_edge_label (op : String) (samples : List ℚ) : Option ℚ :=
  if samples.isEmpty then none
  else some (if op = "mean" then samples.sum / (samples.length : ℚ) else samples.sum)

/-! ## Concrete tables used by the witnesses and counterexamples -/

/-- A canonical-table row with the given PO number, invoice identifier
and timestamp (the remaining columns are irrelevant to the filters). -/
def mkRow (po : Int) (uid : Option String) (ts : Int) : Row :=
  { po_number := po, pr_po_no := "", uid_number := uid, activity := "",
    date := [], timestamp := ts, item := "", item_line := "", po_line := "",
    gr_number := "", gr_line := "", inv_line := "", wf_line := "" }

/-- A raw row with the given date string (the remaining columns are
irrelevant to the year filter). -/
def mkRawRow (d : List Char) : RawRow :=
  { po_number := [], pr_po_no := "", uid_number := none, activity := "",
    date := d, item := "", item_line := "", po_line := "", gr_number := "",
    gr_line := "", inv_line := "", wf_line := "" }

/-- C1 witness table: one row carrying the allow-listed invoice, one
invoice-free row on the same PO, one row on another PO. -/
def c1_raw : List Row :=
  [mkRow 3 (some "I9") 5, mkRow 3 none 6, mkRow 4 (some "I7") 7]

/-- C10: a row inside the selected date range with no invoice identifier. -/
def c10_inside : Row := mkRow 7 none 10

/-- C10: the only row carrying the allow-listed invoice, outside the
selected date range. -/
def c10_outside : Row := mkRow 7 (some "I1") 100

/-- C10 table. -/
def c10_raw : List Row := [c10_inside, c10_outside]

/-- C6 witness: the tail of an ISO date string after the year. -/
def c6_rest : List Char := "-05-01".toList

/-- C6 witness row, dated in 2023. -/
def c6_row : RawRow := mkRawRow (natDigits4 2023 ++ c6_rest)

/-- C2 witness events: one `item` object seen by three events. -/
def evA : Event := { eid := 0, activity := "A", timestamp := 10, objs := [("item", "o1")] }

/-- Second C2 witness event. -/
def evB : Event := { eid := 1, activity := "B", timestamp := 20, objs := [("item", "o1")] }

/-- Third C2 witness event. -/
def evC : Event := { eid := 2, activity := "C", timestamp := 30, objs := [("item", "o1")] }

/-- C2 witness log. -/
def c2_log : List Event := [evA, evB, evC]

/-! ## Decimal-string lemmas -/

lemma digitChar_val : ∀ d : Nat, d < 10 → (Nat.digitChar d).toNat - 48 = d := by
  decide

lemma digitChar_injOn : ∀ d₁ : Nat, d₁ < 10 → ∀ d₂ : Nat, d₂ < 10 →
    Nat.digitChar d₁ = Nat.digitChar d₂ → d₁ = d₂ := by
  decide

lemma toDigitsCore_append :
    ∀ (fuel n : Nat) (ds : List Char),
      Nat.toDigitsCore 10 fuel n ds = Nat.toDigitsCore 10 fuel n [] ++ ds := by
  intro fuel
  induction fuel with
  | zero => intro n ds; simp [Nat.toDigitsCore]
  | succ f ih =>
    intro n ds
    simp only [Nat.toDigitsCore]
    by_cases h : n / 10 = 0
    · simp [h]
    · simp only [h, if_false]
      rw [ih (n / 10) ((n % 10).digitChar :: ds), ih (n / 10) [(n % 10).digitChar]]
      simp

lemma toDigitsCore_fuel :
    ∀ (n f f' : Nat) (ds : List Char), n < f → n < f' →
      Nat.toDigitsCore 10 f n ds = Nat.toDigitsCore 10 f' n ds := by
  intro n
  induction n using Nat.strong_induction_on with
  | _ n ih =>
    intro f f' ds hf hf'
    match f, f' with
    | f + 1, f' + 1 =>
      simp only [Nat.toDigitsCore]
      by_cases h : n / 10 = 0
      · simp [h]
      · simp only [h, if_false]
        have hn10 : n / 10 < n := Nat.div_lt_self (by omega) (by omega)
        exact ih (n / 10) hn10 f f' _ (by omega) (by omega)

lemma digitsVal_toDigits : ∀ n : Nat, digitsVal (Nat.toDigits 10 n) = n := by
  intro n
  induction n using Nat.strong_induction_on with
  | _ n ih =>
    show digitsVal (Nat.toDigitsCore 10 (n + 1) n []) = n
    simp only [Nat.toDigitsCore]
    by_cases h : n / 10 = 0
    · simp only [h, if_true]
      have hlt : n < 10 := by omega
      simp [digitsVal, digitChar_val n hlt, Nat.mod_eq_of_lt hlt]
    · simp only [h, if_false]
      have hn10 : n / 10 < n := Nat.div_lt_self (by omega) (by omega)
      rw [toDigitsCore_fuel (n / 10) n (n / 10 + 1) _ (by omega) (by omega)]
      rw [toDigitsCore_append]
      have hrepr : Nat.toDigitsCore 10 (n / 10 + 1) (n / 10) [] = Nat.toDigits 10 (n / 10) :=
        rfl
      rw [hrepr]
      unfold digitsVal
      rw [List.foldl_append]
      have ihv : digitsVal (Nat.toDigits 10 (n / 10)) = n / 10 := ih (n / 10) hn10
      unfold digitsVal at ihv
      rw [ihv]
      simp [digitChar_val (n % 10) (Nat.mod_lt n (by omega))]
      omega

lemma nat_repr_injective : ∀ m n : Nat, Nat.repr m = Nat.repr n → m = n := by
  intro m n h
  have hd : Nat.toDigits 10 m = Nat.toDigits 10 n := by
    have hdata := congrArg String.data h
    simpa [Nat.repr, List.asString] using hdata
  have hv := congrArg digitsVal hd
  rwa [digitsVal_toDigits, digitsVal_toDigits] at hv

lemma eid_injective : Function.Injective eid := by
  intro i j h
  have hdata : ('e' :: (Nat.repr i).data) = ('e' :: (Nat.repr j).data) := by
    simpa [eid, String.data_append] using congrArg String.data h
  have htail : (Nat.repr i).data = (Nat.repr j).data := by
    injection hdata
  exact nat_repr_injective i j (String.ext htail)

lemma mem_dropDupAux {α : Type} [DecidableEq α] :
    ∀ (l seen : List α) (a : α), a ∈ dropDupAux seen l ↔ a ∈ l ∧ a ∉ seen := by
  intro l
  induction l with
  | nil => intro seen a; simp [dropDupAux]
  | cons b rest ih =>
    intro seen a
    by_cases hb : b ∈ seen
    · simp only [dropDupAux, if_pos hb, ih, List.mem_cons]
      constructor
      · rintro ⟨h1, h2⟩; exact ⟨Or.inr h1, h2⟩
      · rintro ⟨h1 | h1, h2⟩
        · exact absurd (h1 ▸ hb) h2
        · exact ⟨h1, h2⟩
    · simp only [dropDupAux, if_neg hb, List.mem_cons, ih]
      constructor
      · rintro (rfl | ⟨h1, h2⟩)
        · exact ⟨Or.inl rfl, hb⟩
        · exact ⟨Or.inr h1, fun hs => h2 (Or.inr hs)⟩
      · rintro ⟨hab | h1, h2⟩
        · exact Or.inl hab
        · by_cases heq : a = b
          · exact Or.inl heq
          · exact Or.inr ⟨h1, fun hs => hs.elim (fun h => heq h) (fun h => h2 h)⟩

lemma nodup_dropDupAux {α : Type} [DecidableEq α] :
    ∀ (l seen : List α), (dropDupAux seen l).Nodup := by
  intro l
  induction l with
  | nil => intro seen; simp [dropDupAux]
  | cons b rest ih =>
    intro seen
    by_cases hb : b ∈ seen
    · simpa [dropDupAux, if_pos hb] using ih seen
    · rw [dropDupAux, if_neg hb, List.nodup_cons]
      refine ⟨fun hmem => ?_, ih (b :: seen)⟩
      exact ((mem_dropDupAux rest (b :: seen) b).mp hmem).2 (List.mem_cons_self b seen)

lemma mem_dropDuplicates {α : Type} [DecidableEq α] (l : List α) (a : α) :
    a ∈ dropDuplicates l ↔ a ∈ l := by
  simp [dropDuplicates, mem_dropDupAux]

lemma nodup_dropDuplicates {α : Type} [DecidableEq α] (l : List α) :
    (dropDuplicates l).Nodup :=
  nodup_dropDupAux l []

/-! ## Claim theorems -/

/-- C5: exact-duplicate rows collapse to a single event before event
identities are assigned: the deduplicated table has no duplicates yet
the same membership as the input, the OCEL event count equals the
number of distinct rows, and the assigned event ids are the ordinal
labels `e0, e1, …`, all distinct. -/
theorem C5_dedup_events (dff : List Row) :
    (dropDuplicates dff).Nodup
    ∧ (∀ r : Row, r ∈ dropDuplicates dff ↔ r ∈ dff)
    ∧ (df_ocel_prep dff).length = dff.toFinset.card
    ∧ (df_ocel_prep dff).map Prod.fst = (List.range (dropDuplicates dff).length).map eid
    ∧ ((df_ocel_prep dff).map Prod.fst).Nodup := by
  have hnd := nodup_dropDuplicates dff
  have hmem := mem_dropDuplicates dff
  have hfin : (dropDuplicates dff).toFinset = dff.toFinset := by
    ext x
    simp [List.mem_toFinset, hmem]
  have hlen : (dropDuplicates dff).length = dff.toFinset.card := by
    rw [← hfin, List.toFinset_card_of_nodup hnd]
  have hmap : (df_ocel_prep dff).map Prod.fst
      = (List.range (dropDuplicates dff).length).map eid := by
    unfold df_ocel_prep assign_eids
    rw [List.map_map]
    have hcomp : (Prod.fst ∘ fun p : Nat × Row => (eid p.1, p.2)) = eid ∘ Prod.fst := rfl
    rw [hcomp, ← List.map_map, List.enum_map_fst]
  refine ⟨hnd, hmem, ?_, hmap, ?_⟩
  · have hlen2 : (df_ocel_prep dff).length = (dropDuplicates dff).length := by
      simp [df_ocel_prep, assign_eids]
    rw [hlen2, hlen]
  · rw [hmap]
    exact List.Nodup.map eid_injective (List.nodup_range _)

/-- C3: the final selected-activity set is the selected set minus the
exclusion set; in group mode the selected set is the union of the
chosen groups' member lists; in sub-activity mode it is exactly the
individually chosen activities. -/
theorem C3_activity_selection :
    (∀ (selected exclude : List String) (a : String),
        a ∈ final_activities selected exclude ↔ a ∈ selected ∧ a ∉ exclude)
    ∧ (∀ (groups : List ActGroup) (indiv : List String) (a : String),
        a ∈ selected_acts ActMode.main groups indiv ↔ ∃ g ∈ groups, a ∈ group_map g)
    ∧ (∀ (groups : List ActGroup) (indiv : List String),
        selected_acts ActMode.sub groups indiv = indiv) := by
  have hfold : ∀ (gs : List ActGroup) (acc : List String),
      gs.foldl (fun acc g => acc ++ group_map g) acc = acc ++ gs.flatMap group_map := by
    intro gs
    induction gs with
    | nil => intro acc; simp
    | cons g rest ih => intro acc; simp [List.foldl_cons, ih]
  refine ⟨?_, ?_, fun _ _ => rfl⟩
  · intro selected exclude a
    simp [final_activities, List.mem_filter]
  · intro groups indiv a
    simp [selected_acts, hfold, List.mem_flatMap]

/-- C4 counterexample: the canonical table's column set is not the
12-column list the claim names — the source also keeps `gr_number`. -/
theorem C4_cols_counterexample :
    cols_to_keep ≠
      ["po_number", "pr_po_no", "uid_number", "activity", "date", "timestamp",
       "item", "item_line", "po_line", "gr_line", "inv_line", "wf_line"] := by
  decide

/-- C4 (amended): the Normalizer's canonical table is restricted to
exactly the 13 columns po_number, pr_po_no, uid_number, activity, date,
timestamp, item, item_line, po_line, gr_number, gr_line, inv_line,
wf_line, in that order. -/
theorem C4_cols_exact :
    cols_to_keep =
      ["po_number", "pr_po_no", "uid_number", "activity", "date", "timestamp",
       "item", "item_line", "po_line", "gr_number", "gr_line", "inv_line",
       "wf_line"] := by
  decide

/-- C7: when the numeric coercion of a `po_number` value fails, the
value maps to the sentinel 0; the coercion is total, so the load does
not fail on such a value. -/
theorem C7_po_sentinel (s : List Char) (h : to_numeric s = none) : po_coerce s = 0 := by
  simp [po_coerce, h]

/-- C7 witness: the value `"abc"` is unparseable and coerces to 0. -/
theorem C7_po_sentinel_witness :
    to_numeric "abc".toList = none ∧ po_coerce "abc".toList = 0 := by
  refine ⟨by decide, C7_po_sentinel "abc".toList (by decide)⟩

/-- C8: a missing source data file yields no canonical table, the
user-facing error is reported, and the downstream pipeline does not
execute — the render carries no partial output. -/
theorem C8_missing_file (d0 d1 : Int) (po_list inv_list : List String) :
    load_data none = none
      ∧ run_app none d0 d1 po_list inv_list = { error_shown := true, body := none } :=
  ⟨rfl, rfl⟩

/-- C1: with a non-empty invoice allow-list, the pre-OCEL filter keeps
exactly the date/PO-filtered rows whose PO is in the set resolved from
the allow-list and that have no invoice identifier or an allow-listed
one; hence every row of the filtered table has an allow-listed invoice
identifier (if any) and a PO in the resolved set. -/
theorem C1_invoice_filter (raw : List Row) (d0 d1 : Int) (po_list inv_list : List String)
    (hinv : inv_list ≠ []) :
    (∀ r : Row,
        r ∈ apply_filters raw d0 d1 po_list inv_list ↔
          r ∈ po_stage (date_stage raw d0 d1) po_list
            ∧ r.po_number ∈ po_of_invoice raw inv_list
            ∧ (r.uid_number = none ∨ uidStr r.uid_number ∈ inv_list))
    ∧ ∀ r ∈ apply_filters raw d0 d1 po_list inv_list,
        r.po_number ∈ po_of_invoice raw inv_list
          ∧ ∀ u : String, r.uid_number = some u → u ∈ inv_list := by
  have hchar : ∀ r : Row,
      r ∈ apply_filters raw d0 d1 po_list inv_list ↔
        r ∈ po_stage (date_stage raw d0 d1) po_list
          ∧ r.po_number ∈ po_of_invoice raw inv_list
          ∧ (r.uid_number = none ∨ uidStr r.uid_number ∈ inv_list) := by
    intro r
    cases inv_list with
    | nil => exact absurd rfl hinv
    | cons i is =>
      simp only [apply_filters, invoice_stage, List.isEmpty_cons, if_neg Bool.false_ne_true,
        List.mem_filter, Bool.or_eq_true, Option.isNone_iff_eq_none, decide_eq_true_eq]
      tauto
  refine ⟨hchar, ?_⟩
  intro r hr
  obtain ⟨-, hpo, huid⟩ := (hchar r).mp hr
  refine ⟨hpo, fun u hu => ?_⟩
  rcases huid with h | h
  · rw [hu] at h
    cases h
  · rw [hu] at h
    simpa [uidStr] using h

/-- C1 witness: the filter characterisation instantiated on a concrete
three-row table with allow-list `["I9"]`. -/
theorem C1_invoice_filter_witness :
    (["I9"] : List String) ≠ []
    ∧ ((∀ r : Row,
          r ∈ apply_filters c1_raw 0 50 [] ["I9"] ↔
            r ∈ po_stage (date_stage c1_raw 0 50) []
              ∧ r.po_number ∈ po_of_invoice c1_raw ["I9"]
              ∧ (r.uid_number = none ∨ uidStr r.uid_number ∈ ["I9"]))
        ∧ ∀ r ∈ apply_filters c1_raw 0 50 [] ["I9"],
            r.po_number ∈ po_of_invoice c1_raw ["I9"]
              ∧ ∀ u : String, r.uid_number = some u → u ∈ ["I9"]) :=
  ⟨by decide, C1_invoice_filter c1_raw 0 50 [] ["I9"] (by decide)⟩

/-- C10: the PO set an invoice allow-list resolves to is computed over
the raw canonical table, not the date-filtered rows: on the concrete
table `c10_raw` with date range `[0, 50]`, the in-range row is kept
because the allow-listed invoice `"I1"` touches PO 7 only via the
out-of-range row; resolving over the date-filtered rows instead would
give the empty PO set. -/
theorem C10_resolution_over_raw :
    apply_filters c10_raw 0 50 [] ["I1"] = [c10_inside]
    ∧ c10_inside.uid_number = none
    ∧ (0 ≤ c10_inside.timestamp ∧ c10_inside.timestamp ≤ 50)
    ∧ ¬(c10_outside.timestamp ≤ 50)
    ∧ c10_outside.uid_number = some "I1"
    ∧ po_of_invoice c10_raw ["I1"] = [7]
    ∧ c10_inside.po_number ∈ po_of_invoice c10_raw ["I1"]
    ∧ po_of_invoice (date_stage c10_raw 0 50) ["I1"] = [] := by
  decide

lemma digitsVal_natDigits4 (y : Nat) (hy : y < 10000) : digitsVal (natDigits4 y) = y := by
  have h1 : y / 1000 % 10 < 10 := Nat.mod_lt _ (by omega)
  have h2 : y / 100 % 10 < 10 := Nat.mod_lt _ (by omega)
  have h3 : y / 10 % 10 < 10 := Nat.mod_lt _ (by omega)
  have h4 : y % 10 < 10 := Nat.mod_lt _ (by omega)
  simp [digitsVal, natDigits4, digitChar_val _ h1, digitChar_val _ h2,
    digitChar_val _ h3, digitChar_val _ h4]
  omega

lemma natDigits4_inj (y z : Nat) (hy : y < 10000) (hz : z < 10000)
    (h : natDigits4 y = natDigits4 z) : y = z := by
  have hv := congrArg digitsVal h
  rwa [digitsVal_natDigits4 y hy, digitsVal_natDigits4 z hz] at hv

lemma mem_year_strs_iff (y : Nat) (hy : y < 10000) :
    natDigits4 y ∈ year_filter_strs ↔ y ∈ year_filter := by
  have hstrs : year_filter_strs =
      [natDigits4 2020, natDigits4 2021, natDigits4 2022, natDigits4 2023,
       natDigits4 2024, natDigits4 2025] := by decide
  rw [hstrs]
  constructor
  · intro h
    simp only [List.mem_cons, List.not_mem_nil, or_false] at h
    rcases h with h | h | h | h | h | h
    · rw [natDigits4_inj y 2020 hy (by omega) h]; decide
    · rw [natDigits4_inj y 2021 hy (by omega) h]; decide
    · rw [natDigits4_inj y 2022 hy (by omega) h]; decide
    · rw [natDigits4_inj y 2023 hy (by omega) h]; decide
    · rw [natDigits4_inj y 2024 hy (by omega) h]; decide
    · rw [natDigits4_inj y 2025 hy (by omega) h]; decide
  · intro h
    have h6 : y = 2020 ∨ y = 2021 ∨ y = 2022 ∨ y = 2023 ∨ y = 2024 ∨ y = 2025 := by
      simpa [year_filter] using h
    rcases h6 with rfl | rfl | rfl | rfl | rfl | rfl <;> simp

/-- C6: for a row whose date string is wellformed ISO8601 (a 4-digit
year followed by the rest of the date), the Normalizer keeps the row
exactly when the year of its timestamp is one of the configured valid
years; rows outside are merely absent from the result, with no error. -/
theorem C6_year_filter (rows : List RawRow) (r : RawRow) (y : Nat) (rest : List Char)
    (hy : y < 10000) (hdate : r.date = natDigits4 y ++ rest) :
    r ∈ year_filtered rows ↔ r ∈ rows ∧ ts_year r.date ∈ year_filter := by
  have htake : r.date.take 4 = natDigits4 y := by
    rw [hdate]
    have hlen : (natDigits4 y).length = 4 := rfl
    rw [← hlen]
    exact List.take_left _ _
  have hts : ts_year r.date = y := by
    rw [ts_year, htake, digitsVal_natDigits4 y hy]
  rw [hts]
  simp [year_filtered, List.mem_filter, year_keep, htake, mem_year_strs_iff y hy]

/-- C6 witness: a row dated 2023-05-01 in a one-row table. -/
theorem C6_year_filter_witness :
    2023 < 10000
    ∧ c6_row.date = natDigits4 2023 ++ c6_rest
    ∧ (c6_row ∈ year_filtered [c6_row] ↔
        c6_row ∈ [c6_row] ∧ ts_year c6_row.date ∈ year_filter) :=
  ⟨by decide, rfl, C6_year_filter [c6_row] c6_row 2023 c6_rest (by decide) rfl⟩

/-- C2: an object whose sequence consists of events at t1 < t2 < t3
with distinct activities A, B, C induces exactly the directly-follows
edges A→B and B→C and never A→C; it contributes one event couple and
exactly one unique-object increment to each of those edges, and records
the two time gaps into their duration sample sets. -/
theorem C2_object_sequence (log : List Event) (ot oid : String) (e1 e2 e3 : Event)
    (A B C : String)
    (hseq : seqOf log ot oid = [e1, e2, e3])
    (ht12 : e1.timestamp < e2.timestamp) (ht23 : e2.timestamp < e3.timestamp)
    (hA : e1.activity = A) (hB : e2.activity = B) (hC : e3.activity = C)
    (hAB : A ≠ B) (hBC : B ≠ C) (hAC : A ≠ C) :
    objEdges (seqOf log ot oid) = [(A, B), (B, C)]
    ∧ objCouples (seqOf log ot oid) A B = 1
    ∧ objCouples (seqOf log ot oid) B C = 1
    ∧ objCouples (seqOf log ot oid) A C = 0
    ∧ objUnique (seqOf log ot oid) A B = 1
    ∧ objUnique (seqOf log ot oid) B C = 1
    ∧ objUnique (seqOf log ot oid) A C = 0
    ∧ objGaps (seqOf log ot oid) A B = [e2.timestamp - e1.timestamp]
    ∧ objGaps (seqOf log ot oid) B C = [e3.timestamp - e2.timestamp] := by
  subst hA hB hC
  have hBA : e2.activity ≠ e1.activity := fun h => hAB h.symm
  have hCB : e3.activity ≠ e2.activity := fun h => hBC h.symm
  have hCA : e3.activity ≠ e1.activity := fun h => hAC h.symm
  rw [hseq]
  refine ⟨?_, ?_, ?_, ?_, ?_, ?_, ?_, ?_, ?_⟩ <;>
    simp [objEdges, objCouples, objUnique, objGaps, pairs, hAB, hBC, hAC, hBA, hCB, hCA]

/-- C2 witness: three events on the single `item` object `o1`. -/
theorem C2_object_sequence_witness :
    seqOf c2_log "item" "o1" = [evA, evB, evC]
    ∧ evA.timestamp < evB.timestamp
    ∧ evB.timestamp < evC.timestamp
    ∧ evA.activity = "A" ∧ evB.activity = "B" ∧ evC.activity = "C"
    ∧ ("A" : String) ≠ "B" ∧ ("B" : String) ≠ "C" ∧ ("A" : String) ≠ "C"
    ∧ (objEdges (seqOf c2_log "item" "o1") = [("A", "B"), ("B", "C")]
       ∧ objCouples (seqOf c2_log "item" "o1") "A" "B" = 1
       ∧ objCouples (seqOf c2_log "item" "o1") "B" "C" = 1
       ∧ objCouples (seqOf c2_log "item" "o1") "A" "C" = 0
       ∧ objUnique (seqOf c2_log "item" "o1") "A" "B" = 1
       ∧ objUnique (seqOf c2_log "item" "o1") "B" "C" = 1
       ∧ objUnique (seqOf c2_log "item" "o1") "A" "C" = 0
       ∧ objGaps (seqOf c2_log "item" "o1") "A" "B" = [evB.timestamp - evA.timestamp]
       ∧ objGaps (seqOf c2_log "item" "o1") "B" "C" = [evC.timestamp - evB.timestamp]) :=
  ⟨by decide, by decide, by decide, rfl, rfl, rfl, by decide, by decide, by decide,
    C2_object_sequence c2_log "item" "o1" evA evB evC "A" "B" "C"
      (by decide) (by decide) (by decide) rfl rfl rfl
      (by decide) (by decide) (by decide)⟩

/-- C9: the performance-view rendering call always passes the event
count as node metric, whatever activity metric the operator chose, and
forwards the operator's aggregation; the performance edge label is the
chosen aggregate (mean or sum) of the duration samples, an edge with
samples always gets a label, and an edge with an empty sample set gets
none and is omitted. -/
theorem C9_performance_view :
    (∀ act_metric edge_metric time_op : String,
        (pm_display_calls act_metric edge_metric time_op).2.act_metric = "events"
        ∧ (pm_display_calls act_metric edge_metric time_op).2.annot = "performance"
        ∧ (pm_display_calls act_metric edge_metric time_op).2.performance_aggregation
            = some time_op)
    ∧ (∀ op : String, perf_edge_label op [] = none)
    ∧ (∀ (op : String) (x : ℚ) (l : List ℚ),
        (perf_edge_label op (x :: l)).isSome = true)
    ∧ perf_edge_label "mean" [10, 20, 30] = some 20
    ∧ perf_edge_label "sum" [10, 20, 30] = some 60 := by
  refine ⟨fun _ _ _ => ⟨rfl, rfl, rfl⟩, fun _ => rfl, fun _ _ _ => rfl, ?_, ?_⟩
  · simp [perf_edge_label]
    norm_num
  · simp [perf_edge_label]
    norm_num

end P2P
